import Mathlib

/-!
Shallow embedding of the CHURCHOS backend's RBAC core (src/app/auth.py,
src/app/models.py, src/app/routers/scroll_license.py) and proofs about it.

Conventions of the embedding:
* Python dict lookups `d.get(k)` on token claims become `Option` fields;
  `d.get(k, default)` becomes `Option.getD`.
* Python truthiness of a possibly-missing string (`if not s`) is modelled by
  `pyTruthy` (false for a missing key and for the empty string); truthiness of
  a possibly-missing integer claim (`if exp and ...`) is false for a missing
  key and for the value 0.
* A raised exception becomes an `Except.error`; a `try/except Exception`
  block becomes a wrapper that maps every inner error to the handler's
  replacement error.  FastAPI's `HTTPException` derives from `Exception`, so
  an `HTTPException` raised inside such a `try` block is caught by the
  catch-all handler like any other error.
* The SQLAlchemy session is modelled as an explicit store state `DB`
  (a list of user records plus I/O counters for the reads and committed
  writes performed by the request under consideration).  The store's
  uniqueness constraint on the natural key `firebase_uid` follows the
  persistence-collaborator interface: `insert` fails with a unique-constraint
  violation when a record with the same `firebase_uid` is already present.
  Concurrent interference from another request's first-login commit is made
  explicit as an optional record (`race`) that lands in the store between
  this request's lookup and its insert.
* Timestamps (`datetime.utcnow`, token `exp`) are naturals compared
  numerically; `now` is passed explicitly.
-/

/-- The four EXOUSIA roles (src/app/models.py, `RoleEnum`). -/
inductive RoleEnum where
  | DEACON
  | ELDER
  | APOSTLE
  | NATION_SEER
deriving DecidableEq, Repr

/-- The `.value` string of each `RoleEnum` member (src/app/models.py). -/
def RoleEnum.value : RoleEnum → String
  | .DEACON => "Deacon"
  | .ELDER => "Elder"
  | .APOSTLE => "Apostle"
  | .NATION_SEER => "Nation Seer"

/-- A `users` row (src/app/models.py, `User`).  `firebase_uid` is the
external subject key; timestamps are naturals. -/
structure User where
  id : Nat
  email : String
  name : String
  role : RoleEnum
  firebase_uid : String
  is_active : Bool
  created_at : Nat
  updated_at : Nat
deriving DecidableEq, Repr

/-- The `role_hierarchy` dict of `check_role_permission`
(src/app/auth.py lines 156-161).  Every `RoleEnum` member is a key, so the
`.get(_, 0)` default is never taken for a `RoleEnum` argument. -/
def role_hierarchy : RoleEnum → Nat
  | .DEACON => 1
  | .ELDER => 2
  | .APOSTLE => 3
  | .NATION_SEER => 4

/-- Modelled from the spec: the fixed rank mapping `Deacon=1, Elder=2,
Apostle=3, NationSeer=4` (spec §4.3, `rank`).  Kept as a separate definition
so that the implementation's `role_hierarchy` can be compared against it. -/
def rank : RoleEnum → Nat
  | .DEACON => 1
  | .ELDER => 2
  | .APOSTLE => 3
  | .NATION_SEER => 4

/-- `check_role_permission` (src/app/auth.py lines 151-170): true iff the
user's role level is at least the required role's level. -/
def check_role_permission (user : User) (required_role : RoleEnum) : Bool :=
  decide (role_hierarchy user.role ≥ role_hierarchy required_role)

/-- The `permissions_map` table of `get_user_permissions`
(src/app/auth.py lines 207-243). -/
def permissions_map : RoleEnum → List String
  | .DEACON =>
    ["view_prophecies",
     "create_basic_prophecies",
     "join_prayer_sessions"]
  | .ELDER =>
    ["view_prophecies",
     "create_prophecies",
     "manage_prayer_sessions",
     "access_bible_characters",
     "view_holy_land"]
  | .APOSTLE =>
    ["view_prophecies",
     "create_prophecies",
     "manage_prayer_sessions",
     "access_bible_characters",
     "view_holy_land",
     "create_scroll_compositions",
     "manage_users",
     "start_livestreams"]
  | .NATION_SEER =>
    ["view_prophecies",
     "create_prophecies",
     "manage_prayer_sessions",
     "access_bible_characters",
     "view_holy_land",
     "create_scroll_compositions",
     "manage_users",
     "start_livestreams",
     "manage_roles",
     "access_all_modules",
     "prophetic_oversight"]

/-- `get_user_permissions` (src/app/auth.py lines 202-245):
`permissions_map.get(user.role, [])`; the default branch is unreachable for
a `RoleEnum`-typed role. -/
def get_user_permissions (user : User) : List String :=
  permissions_map user.role

/-- An HTTP error outcome: status code and detail string. -/
structure HTTPError where
  status_code : Nat
  detail : String
deriving DecidableEq, Repr

/-- The checker produced by `require_role required_role`
(src/app/auth.py lines 172-185): admits the resolved user iff
`check_role_permission` holds, else 403. -/
def require_role (required_role : RoleEnum) (current_user : User) :
    Except HTTPError User :=
  if !check_role_permission current_user required_role then
    .error ⟨403, "Insufficient permissions. Required role: " ++
      required_role.value ++ ". Your role: " ++ current_user.role.value⟩
  else
    .ok current_user

/-- The checker produced by `require_minimum_role minimum_role`
(src/app/auth.py lines 187-200). -/
def require_minimum_role (minimum_role : RoleEnum) (current_user : User) :
    Except HTTPError User :=
  if !check_role_permission current_user minimum_role then
    .error ⟨403, "Insufficient permissions. Minimum required role: " ++
      minimum_role.value ++ ". Your role: " ++ current_user.role.value⟩
  else
    .ok current_user

/-- The decoded token claims dict, as consumed by `verify_firebase_token`
and `get_current_user` (src/app/auth.py): each claim may be absent.
`exp` is a Unix timestamp. -/
structure TokenData where
  uid : Option String
  exp : Option Nat
  email : Option String
  name : Option String
  display_name : Option String
deriving DecidableEq, Repr

/-- Python truthiness of a possibly-missing string claim: `if not s` is
taken when the key is absent or the string is empty. -/
def pyTruthy : Option String → Bool
  | none => false
  | some s => s ≠ ""

/-- Python truthiness of the `exp` claim combined with the expiry
comparison (src/app/auth.py lines 64-65): `if exp and
datetime.fromtimestamp(exp) < datetime.utcnow()`.  An absent claim and the
value 0 are falsy, so the branch fires exactly when `exp` is present,
nonzero and strictly before `now`. -/
def expiredCheck (exp : Option Nat) (now : Nat) : Bool :=
  match exp with
  | none => false
  | some e => e ≠ 0 && e < now

/-- The body of the `try` block of `verify_firebase_token` after the
provider decoded the token (src/app/auth.py lines 55-73): reject a missing
or empty `uid` with 401, then apply the local expiry check, then return the
decoded claims. -/
def verify_token_body (t : TokenData) (now : Nat) : Except HTTPError TokenData :=
  if !pyTruthy t.uid then
    .error ⟨401, "Invalid token: missing user ID"⟩
  else if expiredCheck t.exp now then
    .error ⟨401, "Token expired"⟩
  else
    .ok t

/-- What the external provider call `auth.verify_id_token` produced:
decoded claims, or one of its error classes. -/
inductive ProviderResult where
  | decoded (t : TokenData)
  | expiredError
  | revokedError
  | invalidError
  | otherError
deriving DecidableEq, Repr

/-- `verify_firebase_token` (src/app/auth.py lines 44-102).  The provider
error classes map to their dedicated 401 responses.  An `HTTPException`
raised inside the `try` block (missing uid, local expiry) is not one of the
`auth.*` error classes, so it is caught by the trailing
`except Exception` and replaced by 401 "Authentication failed". -/
def verify_firebase_token (pr : ProviderResult) (now : Nat) :
    Except HTTPError TokenData :=
  match pr with
  | .decoded t =>
    match verify_token_body t now with
    | .ok t => .ok t
    | .error _ => .error ⟨401, "Authentication failed"⟩
  | .expiredError => .error ⟨401, "Token expired"⟩
  | .revokedError => .error ⟨401, "Token revoked"⟩
  | .invalidError => .error ⟨401, "Invalid token"⟩
  | .otherError => .error ⟨401, "Authentication failed"⟩

/-- The store state seen by one request: the `users` table, the id the
store will assign to the next inserted row, and counters for the reads and
committed writes performed by the request under consideration. -/
structure DB where
  users : List User
  nextId : Nat
  reads : Nat
  writes : Nat
deriving DecidableEq, Repr

/-- `db.query(User).filter(User.firebase_uid == uid).first()`
(src/app/auth.py line 121). -/
def findByUid (db : DB) (uid : String) : Option User :=
  db.users.find? (fun u => u.firebase_uid == uid)

/-- Interference from the concurrent first-login race: another request's
committed insert landing between this request's lookup and its own insert.
The interfering row is appended by the other session, so this request's
read/write counters are untouched. -/
def applyRace (db : DB) (race : Option User) : DB :=
  match race with
  | none => db
  | some v => { db with users := db.users ++ [v], nextId := db.nextId + 1 }

/-- An error inside the `try` block of `get_current_user`: a raised
`HTTPException`, or the store's unique-constraint violation on commit. -/
inductive ResolveError where
  | httpError (e : HTTPError)
  | uniqueViolation
deriving DecidableEq, Repr

/-- The body of the `try` block of `get_current_user`
(src/app/auth.py lines 112-142): reject a missing/empty uid with 401; look
the user up by `firebase_uid`; if absent, insert a new Deacon-role user
built from the token claims (the insert fails with the store's
unique-constraint violation when the racing request's row is already
there); if present, update `email` (and, via the column's `onupdate`,
`updated_at`) exactly when it differs from the token's email, committing
that update. -/
def get_current_user_body (t : TokenData) (db : DB) (now : Nat)
    (race : Option User) : Except ResolveError (User × DB) :=
  if !pyTruthy t.uid then
    .error (.httpError ⟨401, "Invalid token data: missing UID"⟩)
  else
    let uid := t.uid.getD ""
    let db := { db with reads := db.reads + 1 }
    match findByUid db uid with
    | none =>
      let dbr := applyRace db race
      let newUser : User :=
        { id := dbr.nextId
          email := t.email.getD ""
          name := t.name.getD (t.display_name.getD "Unknown User")
          role := .DEACON
          firebase_uid := uid
          is_active := true
          created_at := now
          updated_at := now }
      if dbr.users.any (fun u => u.firebase_uid == uid) then
        .error .uniqueViolation
      else
        .ok (newUser,
          { dbr with users := dbr.users ++ [newUser],
                     nextId := dbr.nextId + 1,
                     writes := dbr.writes + 1 })
    | some user =>
      if user.email != t.email.getD "" then
        let user' := { user with email := t.email.getD "", updated_at := now }
        .ok (user',
          { db with
              users := db.users.map
                (fun x => if x.firebase_uid == uid then user' else x),
              writes := db.writes + 1 })
      else
        .ok (user, db)

/-- `get_current_user` (src/app/auth.py lines 104-149): the `try` body
wrapped in the catch-all `except Exception` handler, which replaces every
inner error — the inner 401 `HTTPException` included — by
500 "Failed to retrieve user data".  On an error no commit of this request
has happened, so the store is returned as the request left it before the
failing step. -/
def get_current_user (t : TokenData) (db : DB) (now : Nat)
    (race : Option User) : Except HTTPError (User × DB) :=
  match get_current_user_body t db now race with
  | .ok r => .ok r
  | .error _ => .error ⟨500, "Failed to retrieve user data"⟩

/-- The outcome of one protected request. -/
inductive Outcome where
  | authorized (u : User)
  | rejected (e : HTTPError)
deriving DecidableEq, Repr

/-- The per-request dependency chain of a route guarded by
`require_minimum_role` (src/app/auth.py): `verify_firebase_token`, then
`get_current_user`, then the rank check.  A verification failure returns
its 401 before the resolution step touches the store; a resolution failure
returns its 500; the rank check turns the resolved user into either the
authorized principal or the 403, leaving the store exactly as resolution
committed it. -/
def requestPipeline (pr : ProviderResult) (now : Nat)
    (minimum_role : RoleEnum) (db : DB) (race : Option User) :
    Outcome × DB :=
  match verify_firebase_token pr now with
  | .error e => (.rejected e, db)
  | .ok t =>
    match get_current_user t db now race with
    | .error e => (.rejected e, db)
    | .ok (u, db') =>
      match require_minimum_role minimum_role u with
      | .error e => (.rejected e, db')
      | .ok u => (.authorized u, db')

/-- A Python value as it appears in the scroll_license role comparisons:
either a `RoleEnum` member or a string literal. -/
inductive PyVal where
  | enumV (r : RoleEnum)
  | strV (s : String)
deriving DecidableEq, Repr

/-- Python `==` between such values: two strings compare by content, two
enum members compare as members; a plain `enum.Enum` member (no `str`
mixin) never equals a string. -/
def pyEq : PyVal → PyVal → Bool
  | .enumV a, .enumV b => a == b
  | .strV a, .strV b => a == b
  | _, _ => false

/-- Python `in` over a list literal: membership via `pyEq`. -/
def pyIn (v : PyVal) (l : List PyVal) : Bool :=
  l.any (pyEq v)

/-- The guard of `get_scroll_license_requests`
(src/app/routers/scroll_license.py lines 279-282):
`if current_user.role not in ["apostle", "nation_seer"]: raise 403`. -/
def get_scroll_license_requests_guard (current_user : User) :
    Except HTTPError Unit :=
  if !pyIn (.enumV current_user.role) [.strV "apostle", .strV "nation_seer"] then
    .error ⟨403, "Insufficient EXOUSIA level"⟩
  else
    .ok ()

/-- The guard of `seed_apostolic_accounts`
(src/app/routers/scroll_license.py lines 317-320):
`if current_user.role != "nation_seer": raise 403`. -/
def seed_apostolic_accounts_guard (current_user : User) :
    Except HTTPError Unit :=
  if !pyEq (.enumV current_user.role) (.strV "nation_seer") then
    .error ⟨403, "Nation Seer access required"⟩
  else
    .ok ()

/-- The guard of `get_scroll_license_stats`
(src/app/routers/scroll_license.py lines 374-377): same comparison as the
requests guard. -/
def get_scroll_license_stats_guard (current_user : User) :
    Except HTTPError Unit :=
  if !pyIn (.enumV current_user.role) [.strV "apostle", .strV "nation_seer"] then
    .error ⟨403, "Insufficient EXOUSIA level"⟩
  else
    .ok ()

/-- A record committed by the racing concurrent first login for subject
`u1`. -/
def raceUser : User := ⟨7, "x@y.com", "w", .DEACON, "u1", true, 0, 0⟩

/-- Helper: resolving an existing user whose stored email already equals the
token's email returns that user and touches the store only by the lookup
read. -/
lemma resolve_existing_same_email (t : TokenData) (db : DB) (now : Nat)
    (s : String) (u : User)
    (huid : t.uid = some s) (hs : s ≠ "")
    (hfind : findByUid db s = some u)
    (hemail : u.email = t.email.getD "") :
    get_current_user t db now none =
      .ok (u, { db with reads := db.reads + 1 }) := by
  unfold get_current_user get_current_user_body
  rw [huid]
  simp only [findByUid] at hfind
  simp [pyTruthy, hs, findByUid, hfind, hemail]

/-- Helper: resolving an existing user whose stored email differs from the
token's email returns the user with the email replaced and `updated_at`
refreshed, committing exactly one write that replaces the row in the
store. -/
lemma resolve_existing_diff_email (t : TokenData) (db : DB) (now : Nat)
    (s : String) (u : User)
    (huid : t.uid = some s) (hs : s ≠ "")
    (hfind : findByUid db s = some u)
    (hemail : u.email ≠ t.email.getD "") :
    get_current_user t db now none =
      .ok ({ u with email := t.email.getD "", updated_at := now },
        { db with
            users := db.users.map (fun x =>
              if x.firebase_uid == s then
                { u with email := t.email.getD "", updated_at := now }
              else x),
            reads := db.reads + 1,
            writes := db.writes + 1 }) := by
  unfold get_current_user get_current_user_body
  rw [huid]
  simp only [findByUid] at hfind
  simp [pyTruthy, hs, findByUid, hfind, hemail]

/-- Helper: every error produced by `verify_firebase_token` carries status
code 401. -/
lemma verify_firebase_token_error_status (pr : ProviderResult) (now : Nat)
    (e : HTTPError) (h : verify_firebase_token pr now = .error e) :
    e.status_code = 401 := by
  cases pr with
  | decoded t =>
    simp only [verify_firebase_token] at h
    cases hb : verify_token_body t now with
    | ok t' => rw [hb] at h; exact absurd h (by simp)
    | error e' =>
      rw [hb] at h
      simp only [Except.error.injEq] at h
      rw [← h]
  | expiredError =>
    simp only [verify_firebase_token, Except.error.injEq] at h
    rw [← h]
  | revokedError =>
    simp only [verify_firebase_token, Except.error.injEq] at h
    rw [← h]
  | invalidError =>
    simp only [verify_firebase_token, Except.error.injEq] at h
    rw [← h]
  | otherError =>
    simp only [verify_firebase_token, Except.error.injEq] at h
    rw [← h]

/-- Helper: every error produced by `get_current_user` is exactly
500 "Failed to retrieve user data" — the catch-all handler's replacement. -/
lemma get_current_user_error_eq (t : TokenData) (db : DB) (now : Nat)
    (race : Option User) (e : HTTPError)
    (h : get_current_user t db now race = .error e) :
    e = ⟨500, "Failed to retrieve user data"⟩ := by
  unfold get_current_user at h
  cases hb : get_current_user_body t db now race with
  | ok r => rw [hb] at h; exact absurd h (by simp)
  | error e' =>
    rw [hb] at h
    simp only [Except.error.injEq] at h
    rw [← h]

/-- Helper: every error produced by a `require_minimum_role` checker has
status 403, and it is produced exactly when `check_role_permission`
fails. -/
lemma require_minimum_role_error (m : RoleEnum) (u : User) (e : HTTPError)
    (h : require_minimum_role m u = .error e) :
    e.status_code = 403 ∧ check_role_permission u m = false := by
  unfold require_minimum_role at h
  by_cases hc : check_role_permission u m
  · rw [hc] at h; exact absurd h (by simp)
  · have hc' : check_role_permission u m = false := by
      simpa using hc
    rw [hc'] at h
    simp only [Bool.not_false, if_true, Except.error.injEq] at h
    exact ⟨by rw [← h], hc'⟩

/-- C1: for every user and every required role drawn from the four roles,
`check_role_permission` returns true iff `rank(user.role) ≥ rank(required)`,
with `rank` the fixed mapping Deacon=1, Elder=2, Apostle=3, NationSeer=4;
the quantifier over users covers all 16 role pairs. -/
theorem check_role_permission_iff_rank_ge (u : User) (b : RoleEnum) :
    check_role_permission u b = decide (rank u.role ≥ rank b) := by
  cases u with
  | mk id email name role firebase_uid is_active created_at updated_at =>
    cases role <;> cases b <;> rfl

/-- C2 counterexample: rank Deacon ≤ rank Elder, yet the permission
`create_basic_prophecies` is in the Deacon permission list and not in the
Elder permission list, so the permission sets are not monotonically
non-decreasing in rank (witnessed on concrete users differing only in role). -/
theorem get_user_permissions_not_monotone :
    rank .DEACON ≤ rank .ELDER ∧
    "create_basic_prophecies" ∈
      get_user_permissions ⟨1, "", "d", .DEACON, "u1", true, 0, 0⟩ ∧
    "create_basic_prophecies" ∉
      get_user_permissions ⟨2, "", "e", .ELDER, "u2", true, 0, 0⟩ := by
  refine ⟨by decide, ?_, ?_⟩ <;> decide

/-- C2 amended: the permission lists are monotone from Elder upward
(Elder ⊆ Apostle ⊆ NationSeer, elementwise), but Deacon's list is not
contained in any higher role's list: `create_basic_prophecies` and
`join_prayer_sessions` belong to Deacon only. -/
theorem get_user_permissions_monotone_above_deacon :
    ((permissions_map .ELDER).all
      (fun s => (permissions_map .APOSTLE).contains s) = true) ∧
    ((permissions_map .APOSTLE).all
      (fun s => (permissions_map .NATION_SEER).contains s) = true) ∧
    ((permissions_map .DEACON).all
      (fun s => (permissions_map .ELDER).contains s) = false) ∧
    ((permissions_map .DEACON).all
      (fun s => (permissions_map .APOSTLE).contains s) = false) ∧
    ((permissions_map .DEACON).all
      (fun s => (permissions_map .NATION_SEER).contains s) = false) := by
  refine ⟨?_, ?_, ?_, ?_, ?_⟩ <;> decide

/-- C3: `require_role` and `require_minimum_role` admit exactly the same
users — both admit iff `rank(user.role) ≥ rank(required)` — so there is no
exact-match-only admission rule. -/
theorem require_role_equiv_require_minimum_role (u : User) (r : RoleEnum) :
    (require_role r u).isOk = (require_minimum_role r u).isOk ∧
    (require_role r u).isOk = decide (rank u.role ≥ rank r) := by
  cases u with
  | mk id email name role firebase_uid is_active created_at updated_at =>
    cases role <;> cases r <;> exact ⟨rfl, rfl⟩

/-- C4: resolving a decoded credential is idempotent — whenever the store
already holds a user for the credential's subject whose email equals the
credential's email, the (second) resolve call returns exactly that stored
user (same `id`) and leaves the store unchanged except for the lookup read:
no write is performed, so a further call with the same credential again
returns the same `id`. -/
theorem get_current_user_idempotent (t : TokenData) (db : DB) (now : Nat)
    (s : String) (u : User)
    (huid : t.uid = some s) (hs : s ≠ "")
    (hfind : findByUid db s = some u)
    (hemail : u.email = t.email.getD "") :
    get_current_user t db now none =
      .ok (u, { db with reads := db.reads + 1 }) :=
  resolve_existing_same_email t db now s u huid hs hfind hemail

/-- C4 witness: a concrete store holding a user for subject `u1` with the
token's email; resolve returns that user and only bumps the read counter. -/
theorem get_current_user_idempotent_witness :
    get_current_user ⟨some "u1", none, some "a@b.com", none, none⟩
        ⟨[⟨1, "a@b.com", "n", .DEACON, "u1", true, 0, 0⟩], 2, 0, 0⟩ 5 none =
      .ok (⟨1, "a@b.com", "n", .DEACON, "u1", true, 0, 0⟩,
        ⟨[⟨1, "a@b.com", "n", .DEACON, "u1", true, 0, 0⟩], 2, 1, 0⟩) :=
  get_current_user_idempotent
    ⟨some "u1", none, some "a@b.com", none, none⟩
    ⟨[⟨1, "a@b.com", "n", .DEACON, "u1", true, 0, 0⟩], 2, 0, 0⟩ 5 "u1"
    ⟨1, "a@b.com", "n", .DEACON, "u1", true, 0, 0⟩
    rfl (by decide) rfl rfl

/-- C7: on the login path of an existing user, the resolved user keeps the
stored `id`, `firebase_uid`, `role`, `name`, `is_active` and `created_at`;
when the stored email equals the token's email nothing changes at all (no
write), and when it differs only `email` and `updated_at` change, with
exactly one committed write. -/
theorem get_current_user_frame (t : TokenData) (db : DB) (now : Nat)
    (s : String) (u u' : User) (db' : DB)
    (huid : t.uid = some s) (hs : s ≠ "")
    (hfind : findByUid db s = some u)
    (hrun : get_current_user t db now none = .ok (u', db')) :
    u'.id = u.id ∧ u'.firebase_uid = u.firebase_uid ∧ u'.role = u.role ∧
    u'.name = u.name ∧ u'.is_active = u.is_active ∧
    u'.created_at = u.created_at ∧
    (u.email = t.email.getD "" →
      u' = u ∧ db' = { db with reads := db.reads + 1 }) ∧
    (u.email ≠ t.email.getD "" →
      u'.email = t.email.getD "" ∧ u'.updated_at = now ∧
      db'.writes = db.writes + 1) := by
  by_cases he : u.email = t.email.getD ""
  · have h := resolve_existing_same_email t db now s u huid hs hfind he
    rw [h] at hrun
    simp only [Except.ok.injEq, Prod.mk.injEq] at hrun
    obtain ⟨hu, hdb⟩ := hrun
    subst hu
    subst hdb
    exact ⟨rfl, rfl, rfl, rfl, rfl, rfl, fun _ => ⟨rfl, rfl⟩,
      fun hne => absurd he hne⟩
  · have h := resolve_existing_diff_email t db now s u huid hs hfind he
    rw [h] at hrun
    simp only [Except.ok.injEq, Prod.mk.injEq] at hrun
    obtain ⟨hu, hdb⟩ := hrun
    subst hu
    subst hdb
    exact ⟨rfl, rfl, rfl, rfl, rfl, rfl, fun heq => absurd heq he,
      fun _ => ⟨rfl, rfl, rfl⟩⟩

/-- C7 witness: concrete existing user with matching email — all fields
preserved and the store left as it was, except the lookup read. -/
theorem get_current_user_frame_witness :
    (⟨1, "a@b.com", "n", .DEACON, "u1", true, 0, 0⟩ : User).id = 1 ∧
    (⟨1, "a@b.com", "n", .DEACON, "u1", true, 0, 0⟩ : User).firebase_uid = "u1" ∧
    (⟨1, "a@b.com", "n", .DEACON, "u1", true, 0, 0⟩ : User).role = .DEACON ∧
    (⟨1, "a@b.com", "n", .DEACON, "u1", true, 0, 0⟩ : User).name = "n" ∧
    (⟨1, "a@b.com", "n", .DEACON, "u1", true, 0, 0⟩ : User).is_active = true ∧
    (⟨1, "a@b.com", "n", .DEACON, "u1", true, 0, 0⟩ : User).created_at = 0 ∧
    (("a@b.com" : String) = "a@b.com" →
      (⟨1, "a@b.com", "n", .DEACON, "u1", true, 0, 0⟩ : User) =
        ⟨1, "a@b.com", "n", .DEACON, "u1", true, 0, 0⟩ ∧
      (⟨[⟨1, "a@b.com", "n", .DEACON, "u1", true, 0, 0⟩], 2, 1, 0⟩ : DB) =
        ⟨[⟨1, "a@b.com", "n", .DEACON, "u1", true, 0, 0⟩], 2, 1, 0⟩) ∧
    (("a@b.com" : String) ≠ "a@b.com" →
      (⟨1, "a@b.com", "n", .DEACON, "u1", true, 0, 0⟩ : User).email = "a@b.com" ∧
      (⟨1, "a@b.com", "n", .DEACON, "u1", true, 0, 0⟩ : User).updated_at = 5 ∧
      (⟨[⟨1, "a@b.com", "n", .DEACON, "u1", true, 0, 0⟩], 2, 1, 0⟩ : DB).writes = 0 + 1) := by
  have h := get_current_user_frame
    ⟨some "u1", none, some "a@b.com", none, none⟩
    ⟨[⟨1, "a@b.com", "n", .DEACON, "u1", true, 0, 0⟩], 2, 0, 0⟩ 5 "u1"
    ⟨1, "a@b.com", "n", .DEACON, "u1", true, 0, 0⟩
    ⟨1, "a@b.com", "n", .DEACON, "u1", true, 0, 0⟩
    ⟨[⟨1, "a@b.com", "n", .DEACON, "u1", true, 0, 0⟩], 2, 1, 0⟩
    rfl (by decide) rfl rfl
  exact h

/-- C5 counterexample: three concrete verifications falsify the claim as
stated.  With verification time 100: a credential expiring exactly at 100
is accepted (success does not require the expiry to be strictly in the
future); a credential with expiry claim 0 — in the past — is accepted,
because `if exp and ...` treats the integer 0 as falsy; and a credential
with expiry 50 — in the past — is rejected with 401 "Authentication
failed", not 401 "Token expired", because the internally raised
"Token expired" exception is swallowed by the function's catch-all
handler. -/
theorem verify_expiry_counterexample :
    (verify_firebase_token
      (.decoded ⟨some "u1", some 100, none, none, none⟩) 100).isOk = true ∧
    (verify_firebase_token
      (.decoded ⟨some "u1", some 0, none, none, none⟩) 100).isOk = true ∧
    verify_firebase_token
        (.decoded ⟨some "u1", some 50, none, none, none⟩) 100 =
      .error ⟨401, "Authentication failed"⟩ := by
  refine ⟨?_, ?_, ?_⟩ <;> rfl

/-- C5 amended: for a decoded credential with a non-empty subject and an
expiry claim `e`, the local defense-in-depth check rejects exactly when `e`
is nonzero and strictly before verification time, and the rejection
surfaces as HTTP 401 with detail "Authentication failed" (the internal
"Token expired" exception is replaced by the catch-all handler); an expiry
equal to the verification instant, or the literal claim 0, passes the
local check and verification succeeds. -/
theorem verify_local_expiry_amended (t : TokenData) (now e : Nat)
    (huid : pyTruthy t.uid = true) (hexp : t.exp = some e) :
    (verify_firebase_token (.decoded t) now =
        .error ⟨401, "Authentication failed"⟩ ↔ (e ≠ 0 ∧ e < now)) ∧
    (¬(e ≠ 0 ∧ e < now) → verify_firebase_token (.decoded t) now = .ok t) := by
  have hb : verify_token_body t now =
      (if expiredCheck t.exp now then .error ⟨401, "Token expired"⟩
       else .ok t) := by
    unfold verify_token_body
    simp [huid]
  by_cases hc : expiredCheck t.exp now
  · have hcp : e ≠ 0 ∧ e < now := by
      rw [hexp] at hc
      simpa [expiredCheck] using hc
    have hv : verify_firebase_token (.decoded t) now =
        .error ⟨401, "Authentication failed"⟩ := by
      simp only [verify_firebase_token]
      rw [hb, if_pos hc]
    exact ⟨by simp [hv, hcp], fun hn => absurd hcp hn⟩
  · have hcp : ¬(e ≠ 0 ∧ e < now) := by
      rw [hexp] at hc
      simpa [expiredCheck] using hc
    have hv : verify_firebase_token (.decoded t) now = .ok t := by
      simp only [verify_firebase_token]
      rw [hb, if_neg hc]
    refine ⟨?_, fun _ => hv⟩
    rw [hv]
    simp [hcp]

/-- C5 amended witness: with subject `u1` and expiry 50 at verification
time 100 (nonzero, strictly in the past), the local check fires and the
outcome is 401 "Authentication failed". -/
theorem verify_local_expiry_amended_witness :
    verify_firebase_token (.decoded ⟨some "u1", some 50, none, none, none⟩)
        100 =
      .error ⟨401, "Authentication failed"⟩ :=
  (verify_local_expiry_amended ⟨some "u1", some 50, none, none, none⟩ 100 50
    (by decide) rfl).1.mpr (by decide)

/-- C6: temporal structure of the guarded request pipeline.  (1) A
verification failure is returned with the store exactly as it was — the
401 short-circuits before any store I/O (read and write counters
untouched); (2) every rejection whose status is 401 leaves the store
untouched; (3) a 403 rejection happens only after a principal was resolved
(verification succeeded and `get_current_user` returned a user), the store
keeps the state resolution committed, and the rank check failed; (4)
whenever resolution succeeded, the final store state is the one resolution
committed, for every required role — whether the rank check then passes or
fails. -/
theorem requestPipeline_temporal (pr : ProviderResult) (now : Nat)
    (m : RoleEnum) (db : DB) (race : Option User) :
    (∀ e, verify_firebase_token pr now = .error e →
       requestPipeline pr now m db race = (.rejected e, db)) ∧
    (∀ e db', requestPipeline pr now m db race = (.rejected e, db') →
       e.status_code = 401 → db' = db) ∧
    (∀ e db', requestPipeline pr now m db race = (.rejected e, db') →
       e.status_code = 403 →
       ∃ t u db₁, verify_firebase_token pr now = .ok t ∧
         get_current_user t db now race = .ok (u, db₁) ∧ db' = db₁ ∧
         check_role_permission u m = false) ∧
    (∀ t u db₁, verify_firebase_token pr now = .ok t →
       get_current_user t db now race = .ok (u, db₁) →
       (requestPipeline pr now m db race).2 = db₁) := by
  refine ⟨?_, ?_, ?_, ?_⟩
  · intro e he
    simp [requestPipeline, he]
  · intro e db' hrun h401
    cases hv : verify_firebase_token pr now with
    | error e' =>
      simp only [requestPipeline, hv, Prod.mk.injEq,
        Outcome.rejected.injEq] at hrun
      exact hrun.2.symm
    | ok t =>
      cases hg : get_current_user t db now race with
      | error e' =>
        simp only [requestPipeline, hv, hg, Prod.mk.injEq,
          Outcome.rejected.injEq] at hrun
        exact hrun.2.symm
      | ok r =>
        obtain ⟨u, db₁⟩ := r
        cases hr : require_minimum_role m u with
        | error e' =>
          simp only [requestPipeline, hv, hg, hr, Prod.mk.injEq,
            Outcome.rejected.injEq] at hrun
          obtain ⟨he, _⟩ := hrun
          have h403 := (require_minimum_role_error m u e' hr).1
          rw [he] at h403
          rw [h403] at h401
          exact absurd h401 (by decide)
        | ok u' =>
          simp only [requestPipeline, hv, hg, hr, Prod.mk.injEq] at hrun
          exact absurd hrun.1 (by simp)
  · intro e db' hrun h403
    cases hv : verify_firebase_token pr now with
    | error e' =>
      simp only [requestPipeline, hv, Prod.mk.injEq,
        Outcome.rejected.injEq] at hrun
      obtain ⟨he, _⟩ := hrun
      have h401 := verify_firebase_token_error_status pr now e' hv
      rw [he] at h401
      rw [h401] at h403
      exact absurd h403 (by decide)
    | ok t =>
      cases hg : get_current_user t db now race with
      | error e' =>
        simp only [requestPipeline, hv, hg, Prod.mk.injEq,
          Outcome.rejected.injEq] at hrun
        obtain ⟨he, _⟩ := hrun
        have h500 := get_current_user_error_eq t db now race e' hg
        rw [h500] at he
        rw [← he] at h403
        exact absurd h403 (by decide)
      | ok r =>
        obtain ⟨u, db₁⟩ := r
        cases hr : require_minimum_role m u with
        | error e' =>
          simp only [requestPipeline, hv, hg, hr, Prod.mk.injEq,
            Outcome.rejected.injEq] at hrun
          obtain ⟨_, hdb⟩ := hrun
          exact ⟨t, u, db₁, rfl, hg, hdb.symm,
            (require_minimum_role_error m u e' hr).2⟩
        | ok u' =>
          simp only [requestPipeline, hv, hg, hr, Prod.mk.injEq] at hrun
          exact absurd hrun.1 (by simp)
  · intro t u db₁ hv hg
    cases hr : require_minimum_role m u with
    | error e' => simp [requestPipeline, hv, hg, hr]
    | ok u' => simp [requestPipeline, hv, hg, hr]

/-- C6 witness: a rejected provider token leaves the concrete empty store
untouched, and for a fresh subject the final store after a NationSeer-only
request equals the one the first-login write committed, even though the
Deacon-ranked new user is then rejected. -/
theorem requestPipeline_temporal_witness :
    requestPipeline .invalidError 0 .APOSTLE ⟨[], 1, 0, 0⟩ none =
      (.rejected ⟨401, "Invalid token"⟩, ⟨[], 1, 0, 0⟩) ∧
    (requestPipeline (.decoded ⟨some "u1", none, some "a@b.com", none, none⟩)
        5 .NATION_SEER ⟨[], 1, 0, 0⟩ none).2 =
      ⟨[⟨1, "a@b.com", "Unknown User", .DEACON, "u1", true, 5, 5⟩], 2, 1, 1⟩ :=
  ⟨(requestPipeline_temporal .invalidError 0 .APOSTLE ⟨[], 1, 0, 0⟩ none).1
      ⟨401, "Invalid token"⟩ rfl,
   (requestPipeline_temporal
      (.decoded ⟨some "u1", none, some "a@b.com", none, none⟩) 5
      .NATION_SEER ⟨[], 1, 0, 0⟩ none).2.2.2
      ⟨some "u1", none, some "a@b.com", none, none⟩
      ⟨1, "a@b.com", "Unknown User", .DEACON, "u1", true, 5, 5⟩
      ⟨[⟨1, "a@b.com", "Unknown User", .DEACON, "u1", true, 5, 5⟩], 2, 1, 1⟩
      rfl rfl⟩

/-- C8 counterexample: a fresh subject whose insert collides with the
racing request's committed row.  The resolve call surfaces
500 "Failed to retrieve user data" immediately — even though a single
re-read of the store at that point would have found the existing record
(second conjunct), so the claimed retry-once-then-succeed behaviour does
not happen. -/
theorem resolve_race_no_retry_counterexample :
    get_current_user ⟨some "u1", none, some "a@b.com", none, none⟩
        ⟨[], 1, 0, 0⟩ 5 (some raceUser) =
      .error ⟨500, "Failed to retrieve user data"⟩ ∧
    findByUid (applyRace ⟨[], 1, 1, 0⟩ (some raceUser)) "u1" =
      some raceUser :=
  ⟨rfl, rfl⟩

/-- C8 amended: when the first-login insert hits the store's
uniqueness-constraint violation on the subject key, `get_current_user`
does not retry or re-read: the violation is caught by the catch-all
handler and surfaced directly as 500 "Failed to retrieve user data" (the
raw storage error itself is not propagated to the caller). -/
theorem resolve_race_surfaces_500 (t : TokenData) (db : DB) (now : Nat)
    (s : String) (v : User)
    (huid : t.uid = some s) (hs : s ≠ "")
    (hfind : findByUid db s = none) (hv : v.firebase_uid = s) :
    get_current_user t db now (some v) =
      .error ⟨500, "Failed to retrieve user data"⟩ := by
  unfold get_current_user get_current_user_body
  rw [huid]
  simp only [findByUid] at hfind
  simp [pyTruthy, hs, findByUid, hfind, applyRace, hv]

/-- C8 amended witness: concrete race loser for subject `u2` over an empty
store gets the 500 outcome. -/
theorem resolve_race_surfaces_500_witness :
    get_current_user ⟨some "u2", none, none, none, none⟩ ⟨[], 1, 0, 0⟩ 3
        (some ⟨9, "", "w", .ELDER, "u2", true, 0, 0⟩) =
      .error ⟨500, "Failed to retrieve user data"⟩ :=
  resolve_race_surfaces_500 ⟨some "u2", none, none, none, none⟩
    ⟨[], 1, 0, 0⟩ 3 "u2" ⟨9, "", "w", .ELDER, "u2", true, 0, 0⟩
    rfl (by decide) rfl rfl

/-- C9: for every user whose role is one of the four `RoleEnum` members,
all three scroll_license endpoints that compare the role against lowercase
string literals reject with 403 — a plain enum member never equals a
string, so no role grants access. -/
theorem scroll_license_guards_always_403 (u : User) :
    get_scroll_license_requests_guard u =
      .error ⟨403, "Insufficient EXOUSIA level"⟩ ∧
    get_scroll_license_stats_guard u =
      .error ⟨403, "Insufficient EXOUSIA level"⟩ ∧
    seed_apostolic_accounts_guard u =
      .error ⟨403, "Nation Seer access required"⟩ := by
  cases u with
  | mk id email name role firebase_uid is_active created_at updated_at =>
    cases role <;> exact ⟨rfl, rfl, rfl⟩

/-- C10: every failure inside the `try` body of `get_current_user` —
including the internally constructed 401 for a missing UID — is replaced
by the catch-all handler, so the caller sees 500 "Failed to retrieve user
data"; consequently no error leaving `get_current_user` carries status
401. -/
theorem get_current_user_errors_surface_as_500 (t : TokenData) (db : DB)
    (now : Nat) (race : Option User) :
    (∀ e, get_current_user_body t db now race = .error e →
       get_current_user t db now race =
         .error ⟨500, "Failed to retrieve user data"⟩) ∧
    (∀ e, get_current_user t db now race = .error e →
       e.status_code = 500 ∧ e.detail = "Failed to retrieve user data") := by
  constructor
  · intro e he
    simp [get_current_user, he]
  · intro e he
    have h := get_current_user_error_eq t db now race e he
    rw [h]
    exact ⟨rfl, rfl⟩

/-- C10 witness: a token with no `uid` makes the body raise its 401
`HTTPException`, and the caller receives 500 "Failed to retrieve user
data". -/
theorem get_current_user_errors_surface_as_500_witness :
    get_current_user ⟨none, none, none, none, none⟩ ⟨[], 1, 0, 0⟩ 0 none =
      .error ⟨500, "Failed to retrieve user data"⟩ :=
  (get_current_user_errors_surface_as_500 ⟨none, none, none, none, none⟩
      ⟨[], 1, 0, 0⟩ 0 none).1
    (.httpError ⟨401, "Invalid token data: missing UID"⟩) rfl
